import Mathlib

/-!
Shallow embedding of the "Sistema de Gestão de Camarim" repository
(camarim.cpp, pedido.cpp, estoque.cpp, listacompras.cpp, item.cpp,
artista.cpp and their headers).

Modelling conventions:
* C++ `int` is `Int`, `double` (prices) is `Rat`, `std::string` is `String`.
* A `std::map<int, T>` ledger is an association list `List (Int × T)` with
  unique keys maintained by the three primitives below, which mirror
  `find`, `operator[]` assignment and `erase`.
* A `throw` is `Except.error`; an operation that throws before mutating
  returns `.error e`, leaving the caller's state untouched, exactly as the
  C++ methods throw before any write.
* Each exception class of excecoes.h is one constructor of `Exc`;
  `EstoqueInsuficienteException` (the 3-level specialization of
  `EstoqueException`) is its own constructor.
-/

/-- `std::map::find` followed by dereference: the value stored at key `k`,
if present. -/
def mapFind {α : Type} (m : List (Int × α)) (k : Int) : Option α :=
  match m with
  | [] => none
  | (k1, v) :: t => if k1 = k then some v else mapFind t k

/-- `std::map::operator[] = v`: assign `v` at key `k`, overwriting the
entry if the key is present and appending a new entry otherwise. -/
def mapSet {α : Type} (m : List (Int × α)) (k : Int) (v : α) : List (Int × α) :=
  match m with
  | [] => [(k, v)]
  | (k1, v1) :: t => if k1 = k then (k, v) :: t else (k1, v1) :: mapSet t k v

/-- `std::map::erase(k)`: remove the entry at key `k` (all entries with that
key; keys are unique so at most one exists in reachable states). -/
def mapErase {α : Type} (m : List (Int × α)) (k : Int) : List (Int × α) :=
  match m with
  | [] => []
  | (k1, v1) :: t => if k1 = k then mapErase t k else (k1, v1) :: mapErase t k

/-- The exception hierarchy of excecoes.h, one constructor per class.
`estoqueInsuficiente` models `EstoqueInsuficienteException`, the subclass of
`EstoqueException`. -/
inductive Exc where
  | validacao (msg : String)
  | artista (msg : String)
  | item (msg : String)
  | estoque (msg : String)
  | estoqueInsuficiente (msg : String)
  | camarim (msg : String)
  | pedido (msg : String)
  | listaCompras (msg : String)
deriving DecidableEq, Repr

/-- Decidable equality for `Except`, used to evaluate the operations below
on concrete inputs. -/
instance {ε α : Type} [DecidableEq ε] [DecidableEq α] : DecidableEq (Except ε α) := fun a b =>
  match a, b with
  | .ok a1, .ok b1 =>
      if h : a1 = b1 then isTrue (by rw [h]) else isFalse (by simp [h])
  | .error a1, .error b1 =>
      if h : a1 = b1 then isTrue (by rw [h]) else isFalse (by simp [h])
  | .ok _, .error _ => isFalse (by simp)
  | .error _, .ok _ => isFalse (by simp)

/-- `struct ItemEstoque` (estoque.h): stock ledger record. -/
structure ItemEstoque where
  itemId : Int
  nomeItem : String
  quantidade : Int
deriving DecidableEq, Repr

/-- `class Estoque` (estoque.h): the central stock, a map from item id to
`ItemEstoque`. -/
structure Estoque where
  itens : List (Int × ItemEstoque)
deriving DecidableEq, Repr

namespace Estoque

/-- `Estoque::adicionarItem` (estoque.cpp lines 35-59): validates
`itemId < 0`, empty name, `quantidade < 0`; then adds to the existing
record's quantity or inserts a fresh `ItemEstoque`. -/
def adicionarItem (e : Estoque) (itemId : Int) (nomeItem : String)
    (quantidade : Int) : Except Exc Estoque :=
  if itemId < 0 then
    .error (.validacao "ID do item inválido")
  else if nomeItem = "" then
    .error (.validacao "Nome do item não pode ser vazio")
  else if quantidade < 0 then
    .error (.validacao "Quantidade não pode ser negativa")
  else
    match mapFind e.itens itemId with
    | some r =>
        .ok ⟨mapSet e.itens itemId { r with quantidade := r.quantidade + quantidade }⟩
    | none =>
        .ok ⟨mapSet e.itens itemId ⟨itemId, nomeItem, quantidade⟩⟩

/-- `Estoque::removerItem` (estoque.cpp lines 64-95): throws
`EstoqueException` if absent, `ValidacaoException` if `quantidade < 0`,
`EstoqueInsuficienteException` if the stored quantity is smaller; otherwise
subtracts and erases the record when the result is exactly zero. Returns
`true` on success. -/
def removerItem (e : Estoque) (itemId : Int) (quantidade : Int) :
    Except Exc (Estoque × Bool) :=
  match mapFind e.itens itemId with
  | none =>
      .error (.estoque ("Item não encontrado no estoque (ID: " ++ toString itemId ++ ")"))
  | some r =>
      if quantidade < 0 then
        .error (.validacao "Quantidade não pode ser negativa")
      else if r.quantidade < quantidade then
        .error (.estoqueInsuficiente
          ("Quantidade insuficiente. Disponível: " ++ toString r.quantidade ++
           ", Solicitado: " ++ toString quantidade))
      else if r.quantidade - quantidade = 0 then
        .ok (⟨mapErase e.itens itemId⟩, true)
      else
        .ok (⟨mapSet e.itens itemId { r with quantidade := r.quantidade - quantidade }⟩, true)

/-- `Estoque::atualizarQuantidade` (estoque.cpp lines 154-171): throws if
absent or `novaQuantidade < 0`; otherwise overwrites the quantity, erasing
the record when the new quantity is zero. -/
def atualizarQuantidade (e : Estoque) (itemId : Int) (novaQuantidade : Int) :
    Except Exc Estoque :=
  match mapFind e.itens itemId with
  | none => .error (.estoque "Item não encontrado no estoque")
  | some r =>
      if novaQuantidade < 0 then
        .error (.validacao "Quantidade não pode ser negativa")
      else if novaQuantidade = 0 then
        .ok ⟨mapErase e.itens itemId⟩
      else
        .ok ⟨mapSet e.itens itemId { r with quantidade := novaQuantidade }⟩

/-- `Estoque::verificarDisponibilidade` (estoque.cpp lines 100-115). -/
def verificarDisponibilidade (e : Estoque) (itemId : Int) (quantidade : Int) : Bool :=
  match mapFind e.itens itemId with
  | none => false
  | some r => decide (r.quantidade ≥ quantidade)

end Estoque

/-- `struct ItemCamarim` (camarim.h): dressing-room ledger record. -/
structure ItemCamarim where
  itemId : Int
  nomeItem : String
  quantidade : Int
deriving DecidableEq, Repr

/-- `class Camarim` (camarim.h): a dressing room owning its item ledger. -/
structure Camarim where
  id : Int
  nome : String
  artistaId : Int
  itens : List (Int × ItemCamarim)
deriving DecidableEq, Repr

namespace Camarim

/-- `Camarim::inserirItem` (camarim.cpp lines 100-125): validates
`itemId < 0`, empty name, `quantidade <= 0`; then adds to the existing
record's quantity or inserts a fresh `ItemCamarim`. -/
def inserirItem (c : Camarim) (itemId : Int) (nomeItem : String)
    (quantidade : Int) : Except Exc Camarim :=
  if itemId < 0 then
    .error (.validacao "ID do item inválido")
  else if nomeItem = "" then
    .error (.validacao "Nome do item não pode ser vazio")
  else if quantidade ≤ 0 then
    .error (.validacao "Quantidade deve ser maior que zero")
  else
    match mapFind c.itens itemId with
    | some r =>
        .ok { c with itens := mapSet c.itens itemId { r with quantidade := r.quantidade + quantidade } }
    | none =>
        .ok { c with itens := mapSet c.itens itemId ⟨itemId, nomeItem, quantidade⟩ }

/-- `Camarim::removerItem` (camarim.cpp lines 130-155): throws
`CamarimException` if absent, `ValidacaoException` if `quantidade <= 0`,
`CamarimException` if the stored quantity is smaller; otherwise subtracts
and erases the record when the result is exactly zero. -/
def removerItem (c : Camarim) (itemId : Int) (quantidade : Int) :
    Except Exc (Camarim × Bool) :=
  match mapFind c.itens itemId with
  | none => .error (.camarim "Item não encontrado no camarim")
  | some r =>
      if quantidade ≤ 0 then
        .error (.validacao "Quantidade deve ser maior que zero")
      else if r.quantidade < quantidade then
        .error (.camarim "Quantidade insuficiente no camarim")
      else if r.quantidade - quantidade = 0 then
        .ok ({ c with itens := mapErase c.itens itemId }, true)
      else
        .ok ({ c with itens := mapSet c.itens itemId { r with quantidade := r.quantidade - quantidade } }, true)

end Camarim

/-- `class GerenciadorCamarins` (camarim.h). -/
structure GerenciadorCamarins where
  camarins : List Camarim
  proximoId : Int
deriving DecidableEq, Repr

namespace GerenciadorCamarins

/-- `GerenciadorCamarins::cadastrar` (camarim.cpp lines 234-248): validates
only that the name is non-empty (the `artistaId` argument is NOT checked),
then appends `Camarim(proximoId, nome, artistaId)` and returns the used id,
post-incrementing the counter. -/
def cadastrar (g : GerenciadorCamarins) (nome : String) (artistaId : Int) :
    Except Exc (GerenciadorCamarins × Int) :=
  if nome = "" then
    .error (.validacao "Nome do camarim não pode ser vazio")
  else
    .ok (⟨g.camarins ++ [⟨g.proximoId, nome, artistaId, []⟩], g.proximoId + 1⟩, g.proximoId)

end GerenciadorCamarins

/-- `struct ItemPedido` (pedido.h): order ledger record. -/
structure ItemPedido where
  itemId : Int
  nomeItem : String
  quantidade : Int
deriving DecidableEq, Repr

/-- `class Pedido` (pedido.h): an order; `atendido` starts `false`. -/
structure Pedido where
  id : Int
  camarimId : Int
  nomeArtista : String
  itens : List (Int × ItemPedido)
  atendido : Bool
deriving DecidableEq, Repr

namespace Pedido

/-- `Pedido::adicionarItem` (pedido.cpp lines 448-475): throws
`PedidoException` when the order is already fulfilled; otherwise validates
and upserts into the order ledger (adding quantities on an existing id). -/
def adicionarItem (p : Pedido) (itemId : Int) (nomeItem : String)
    (quantidade : Int) : Except Exc Pedido :=
  if p.atendido then
    .error (.pedido "Não é possível adicionar itens a um pedido já atendido")
  else if itemId < 0 then
    .error (.validacao "ID do item inválido")
  else if nomeItem = "" then
    .error (.validacao "Nome do item não pode ser vazio")
  else if quantidade ≤ 0 then
    .error (.validacao "Quantidade deve ser maior que zero")
  else
    match mapFind p.itens itemId with
    | some r =>
        .ok { p with itens := mapSet p.itens itemId { r with quantidade := r.quantidade + quantidade } }
    | none =>
        .ok { p with itens := mapSet p.itens itemId ⟨itemId, nomeItem, quantidade⟩ }

/-- `Pedido::removerItem` (pedido.cpp lines 480-496): throws
`PedidoException` when the order is already fulfilled; returns `false` when
the id is absent; otherwise erases the record entirely. -/
def removerItem (p : Pedido) (itemId : Int) : Except Exc (Pedido × Bool) :=
  if p.atendido then
    .error (.pedido "Não é possível remover itens de um pedido já atendido")
  else
    match mapFind p.itens itemId with
    | none => .ok (p, false)
    | some _ => .ok ({ p with itens := mapErase p.itens itemId }, true)

/-- `Pedido::marcarAtendido` (pedido.cpp lines 501-504): unconditionally
sets `atendido := true`; never throws. -/
def marcarAtendido (p : Pedido) : Pedido :=
  { p with atendido := true }

end Pedido

/-- `class GerenciadorPedidos` (pedido.h). -/
structure GerenciadorPedidos where
  pedidos : List Pedido
  proximoId : Int
deriving DecidableEq, Repr

namespace GerenciadorPedidos

/-- `GerenciadorPedidos::criar` (pedido.cpp lines 559-578): validates
`camarimId < 0` and empty artist name; appends a fresh pending order and
returns the used id, post-incrementing the counter. -/
def criar (g : GerenciadorPedidos) (camarimId : Int) (nomeArtista : String) :
    Except Exc (GerenciadorPedidos × Int) :=
  if camarimId < 0 then
    .error (.validacao "ID do camarim inválido")
  else if nomeArtista = "" then
    .error (.validacao "Nome do artista não pode ser vazio")
  else
    .ok (⟨g.pedidos ++ [⟨g.proximoId, camarimId, nomeArtista, [], false⟩], g.proximoId + 1⟩, g.proximoId)

end GerenciadorPedidos

/-- `struct ItemCompra` (listacompras.h): shopping-list record carrying the
unit price and the cached subtotal. -/
structure ItemCompra where
  itemId : Int
  nomeItem : String
  quantidade : Int
  preco : Rat
  subtotal : Rat
deriving DecidableEq, Repr

/-- `class ListaCompras` (listacompras.h). -/
structure ListaCompras where
  id : Int
  descricao : String
  itens : List (Int × ItemCompra)
deriving DecidableEq, Repr

namespace ListaCompras

/-- `ListaCompras::adicionarItem` (listacompras.cpp lines 83-113): validates
`itemId < 0`, empty name, `quantidade <= 0`, `preco < 0`. On an existing id,
adds the quantity and recomputes `subtotal` from the STORED unit price
(`itens[itemId].preco`); the `preco` argument is not stored. On a fresh id,
inserts `ItemCompra(itemId, nomeItem, quantidade, preco)` whose constructor
(listacompras.h) sets `subtotal = quantidade * preco`. -/
def adicionarItem (l : ListaCompras) (itemId : Int) (nomeItem : String)
    (quantidade : Int) (preco : Rat) : Except Exc ListaCompras :=
  if itemId < 0 then
    .error (.validacao "ID do item inválido")
  else if nomeItem = "" then
    .error (.validacao "Nome do item não pode ser vazio")
  else if quantidade ≤ 0 then
    .error (.validacao "Quantidade deve ser maior que zero")
  else if preco < 0 then
    .error (.validacao "Preço não pode ser negativo")
  else
    match mapFind l.itens itemId with
    | some r =>
        let q1 := r.quantidade + quantidade
        let r1 := { r with quantidade := q1, subtotal := q1 * r.preco }
        .ok { l with itens := mapSet l.itens itemId r1 }
    | none =>
        let r1 : ItemCompra := ⟨itemId, nomeItem, quantidade, preco, quantidade * preco⟩
        .ok { l with itens := mapSet l.itens itemId r1 }

/-- `ListaCompras::calcularTotal` (listacompras.cpp lines 155-168). -/
def calcularTotal (l : ListaCompras) : Rat :=
  l.itens.foldl (fun acc par => acc + par.2.subtotal) 0

end ListaCompras

/-- `class Item` (item.h): catalog entry. -/
structure Item where
  id : Int
  nome : String
  preco : Rat
deriving DecidableEq, Repr

/-- `class GerenciadorItens` (item.h): the catalog. -/
structure GerenciadorItens where
  itens : List Item
  proximoId : Int
deriving DecidableEq, Repr

namespace GerenciadorItens

/-- `GerenciadorItens::buscarPorNome` (item.cpp lines 157-165): linear scan,
first entry with that exact name, else null. -/
def buscarPorNome (g : GerenciadorItens) (nome : String) : Option Item :=
  g.itens.find? (fun i => i.nome = nome)

/-- `GerenciadorItens::buscarPorId` (item.cpp lines 143-154): linear scan,
first entry with that id, else null. -/
def buscarPorId (g : GerenciadorItens) (id : Int) : Option Item :=
  g.itens.find? (fun i => i.id = id)

/-- `GerenciadorItens::cadastrar` (item.cpp lines 115-140): validates empty
name, negative price, duplicate name; then appends
`Item(proximoId, nome, preco)` and returns the used id, post-incrementing
the counter. -/
def cadastrar (g : GerenciadorItens) (nome : String) (preco : Rat) :
    Except Exc (GerenciadorItens × Int) :=
  if nome = "" then
    .error (.validacao "Nome do item não pode ser vazio")
  else if preco < 0 then
    .error (.validacao "Preço do item não pode ser negativo")
  else if (g.buscarPorNome nome).isSome then
    .error (.item ("Item já existe com este nome: " ++ nome))
  else
    .ok (⟨g.itens ++ [⟨g.proximoId, nome, preco⟩], g.proximoId + 1⟩, g.proximoId)

/-- `GerenciadorItens::remover` (item.cpp lines 168-185): remove-erase of
every entry with the id; returns whether anything was removed. -/
def remover (g : GerenciadorItens) (id : Int) : GerenciadorItens × Bool :=
  if g.itens.any (fun i => i.id = id) then
    (⟨g.itens.filter (fun i => ¬ i.id = id), g.proximoId⟩, true)
  else
    (g, false)

end GerenciadorItens

/-- `class Artista` (artista.h): performer record (fields of `Pessoa` plus
`camarimId`). -/
structure Artista where
  id : Int
  nome : String
  camarimId : Int
deriving DecidableEq, Repr

/-- `class GerenciadorArtistas` (artista.h). -/
structure GerenciadorArtistas where
  artistas : List Artista
  proximoId : Int
deriving DecidableEq, Repr

namespace GerenciadorArtistas

/-- `GerenciadorArtistas::cadastrar` (artista.cpp lines 71-88): validates
empty name and `camarimId < 0`; appends `Artista(proximoId, nome, camarimId)`
and returns the used id, post-incrementing the counter. -/
def cadastrar (g : GerenciadorArtistas) (nome : String) (camarimId : Int) :
    Except Exc (GerenciadorArtistas × Int) :=
  if nome = "" then
    .error (.validacao "Nome do artista não pode ser vazio")
  else if camarimId < 0 then
    .error (.validacao "ID de camarim inválido")
  else
    .ok (⟨g.artistas ++ [⟨g.proximoId, nome, camarimId⟩], g.proximoId + 1⟩, g.proximoId)

end GerenciadorArtistas

/-- The stock state as seen by a caller after `Estoque::removerItem`: the
new state on success, the old state when the method throws (every throw in
estoque.cpp happens before any write). -/
def Estoque.removerItemEstado (e : Estoque) (itemId quantidade : Int) : Estoque :=
  match e.removerItem itemId quantidade with
  | .ok (e1, _) => e1
  | .error _ => e

/-- The dressing-room state as seen by a caller after `Camarim::removerItem`:
the new state on success, the old state when the method throws. -/
def Camarim.removerItemEstado (c : Camarim) (itemId quantidade : Int) : Camarim :=
  match c.removerItem itemId quantidade with
  | .ok (c1, _) => c1
  | .error _ => c

/-- The order state as seen by a caller after `Pedido::adicionarItem`: the
new state on success, the old state when the method throws. -/
def Pedido.adicionarItemEstado (p : Pedido) (itemId : Int) (nomeItem : String)
    (quantidade : Int) : Pedido :=
  match p.adicionarItem itemId nomeItem quantidade with
  | .ok p1 => p1
  | .error _ => p

/-- The order state as seen by a caller after `Pedido::removerItem`: the new
state on success, the old state when the method throws. -/
def Pedido.removerItemEstado (p : Pedido) (itemId : Int) : Pedido :=
  match p.removerItem itemId with
  | .ok (p1, _) => p1
  | .error _ => p

/-- One successful mutating call on the central stock, where an
`adicionarItem` call is required to have positive quantity or to target an
id already present (the unrestricted call with quantity 0 on an absent id
creates a zero-quantity record and is excluded). -/
inductive Estoque.Passo : Estoque → Estoque → Prop where
  | adicionar (e e' : Estoque) (itemId : Int) (nomeItem : String) (quantidade : Int)
      (hq : 0 < quantidade ∨ (mapFind e.itens itemId).isSome = true)
      (h : e.adicionarItem itemId nomeItem quantidade = .ok e') :
      Estoque.Passo e e'
  | remover (e e' : Estoque) (itemId quantidade : Int) (b : Bool)
      (h : e.removerItem itemId quantidade = .ok (e', b)) :
      Estoque.Passo e e'
  | atualizar (e e' : Estoque) (itemId novaQuantidade : Int)
      (h : e.atualizarQuantidade itemId novaQuantidade = .ok e') :
      Estoque.Passo e e'

/-- One successful mutating call on a dressing-room ledger
(`Camarim::inserirItem` or `Camarim::removerItem`), unrestricted. -/
inductive Camarim.Passo : Camarim → Camarim → Prop where
  | inserir (c c' : Camarim) (itemId : Int) (nomeItem : String) (quantidade : Int)
      (h : c.inserirItem itemId nomeItem quantidade = .ok c') :
      Camarim.Passo c c'
  | remover (c c' : Camarim) (itemId quantidade : Int) (b : Bool)
      (h : c.removerItem itemId quantidade = .ok (c', b)) :
      Camarim.Passo c c'

/-- Every record of the stock ledger has a strictly positive quantity. -/
def Estoque.positivo (e : Estoque) : Prop :=
  ∀ par ∈ e.itens, 0 < par.2.quantidade

/-- Every record of a dressing-room ledger has a strictly positive
quantity. -/
def Camarim.positivo (c : Camarim) : Prop :=
  ∀ par ∈ c.itens, 0 < par.2.quantidade

/-! Helper lemmas about the map primitives. -/

theorem mapFind_mapSet_self {α : Type} (m : List (Int × α)) (k : Int) (v : α) :
    mapFind (mapSet m k v) k = some v := by
  induction m with
  | nil => simp [mapSet, mapFind]
  | cons hd t ih =>
      obtain ⟨k1, v1⟩ := hd
      by_cases hk : k1 = k
      · simp [mapSet, hk, mapFind]
      · simp [mapSet, hk, mapFind, ih]

theorem mapFind_mapErase_self {α : Type} (m : List (Int × α)) (k : Int) :
    mapFind (mapErase m k) k = none := by
  induction m with
  | nil => simp [mapErase, mapFind]
  | cons hd t ih =>
      obtain ⟨k1, v1⟩ := hd
      by_cases hk : k1 = k
      · simp [mapErase, hk, ih]
      · simp [mapErase, hk, mapFind, ih]

theorem mapFind_mem {α : Type} {m : List (Int × α)} {k : Int} {v : α}
    (h : mapFind m k = some v) : (k, v) ∈ m := by
  induction m with
  | nil => simp [mapFind] at h
  | cons hd t ih =>
      obtain ⟨k1, v1⟩ := hd
      by_cases hk : k1 = k
      · subst hk
        simp [mapFind] at h
        simp [h]
      · simp [mapFind, hk] at h
        exact List.mem_cons_of_mem _ (ih h)

theorem mem_mapSet {α : Type} {m : List (Int × α)} {k : Int} {v : α} {par : Int × α}
    (hp : par ∈ mapSet m k v) : par = (k, v) ∨ par ∈ m := by
  induction m with
  | nil => exact Or.inl (by simpa [mapSet] using hp)
  | cons hd t ih =>
      obtain ⟨k1, v1⟩ := hd
      by_cases hk : k1 = k
      · simp [mapSet, hk] at hp
        rcases hp with hp | hp
        · exact Or.inl (by simp [hp])
        · exact Or.inr (List.mem_cons_of_mem _ hp)
      · simp [mapSet, hk] at hp
        rcases hp with hp | hp
        · exact Or.inr (by simp [hp])
        · rcases ih hp with hp1 | hp1
          · exact Or.inl hp1
          · exact Or.inr (List.mem_cons_of_mem _ hp1)

theorem mem_mapErase {α : Type} {m : List (Int × α)} {k : Int} {par : Int × α}
    (hp : par ∈ mapErase m k) : par ∈ m := by
  induction m with
  | nil => simp [mapErase] at hp
  | cons hd t ih =>
      obtain ⟨k1, v1⟩ := hd
      by_cases hk : k1 = k
      · simp [mapErase, hk] at hp
        exact List.mem_cons_of_mem _ (ih hp)
      · simp [mapErase, hk] at hp
        rcases hp with hp | hp
        · exact by simp [hp]
        · exact List.mem_cons_of_mem _ (ih hp)

theorem find_append_of_none {α : Type} {l1 : List α} (l2 : List α) (p : α → Bool)
    (h : l1.find? p = none) : (l1 ++ l2).find? p = l2.find? p := by
  induction l1 with
  | nil => simp
  | cons hd t ih =>
      rw [List.find?_cons] at h
      cases hpd : p hd with
      | true => simp [hpd] at h
      | false =>
          rw [hpd] at h
          simp only [List.cons_append, List.find?_cons, hpd]
          exact ih h

/-! Preservation of strictly positive quantities by each ledger operation. -/

theorem Estoque.positivo_adicionar {e e' : Estoque} {itemId : Int}
    {nomeItem : String} {quantidade : Int}
    (hq : 0 < quantidade ∨ (mapFind e.itens itemId).isSome = true)
    (h : e.adicionarItem itemId nomeItem quantidade = .ok e')
    (hp : e.positivo) : e'.positivo := by
  unfold Estoque.adicionarItem at h
  unfold Estoque.positivo at hp ⊢
  split_ifs at h with h1 h2 h3
  cases hf : mapFind e.itens itemId with
  | some r =>
      simp only [hf, Except.ok.injEq] at h
      subst h
      intro par hpar
      rcases mem_mapSet hpar with hpar | hpar
      · have hr : 0 < r.quantidade := hp _ (mapFind_mem hf)
        subst hpar
        show 0 < r.quantidade + quantidade
        omega
      · exact hp _ hpar
  | none =>
      simp only [hf, Except.ok.injEq] at h
      subst h
      intro par hpar
      rcases mem_mapSet hpar with hpar | hpar
      · subst hpar
        show 0 < quantidade
        rcases hq with hq | hq
        · exact hq
        · rw [hf] at hq
          simp at hq
      · exact hp _ hpar

theorem Estoque.positivo_remover {e e' : Estoque} {itemId quantidade : Int}
    {b : Bool} (h : e.removerItem itemId quantidade = .ok (e', b))
    (hp : e.positivo) : e'.positivo := by
  unfold Estoque.removerItem at h
  unfold Estoque.positivo at hp ⊢
  cases hf : mapFind e.itens itemId with
  | none => simp [hf] at h
  | some r =>
      simp only [hf] at h
      split_ifs at h with h1 h2 h3
      · simp only [Except.ok.injEq, Prod.mk.injEq] at h
        obtain ⟨h4, h5⟩ := h
        subst h4
        intro par hpar
        exact hp _ (mem_mapErase hpar)
      · simp only [Except.ok.injEq, Prod.mk.injEq] at h
        obtain ⟨h4, h5⟩ := h
        subst h4
        intro par hpar
        rcases mem_mapSet hpar with hpar | hpar
        · subst hpar
          show 0 < r.quantidade - quantidade
          omega
        · exact hp _ hpar

theorem Estoque.positivo_atualizar {e e' : Estoque} {itemId novaQuantidade : Int}
    (h : e.atualizarQuantidade itemId novaQuantidade = .ok e')
    (hp : e.positivo) : e'.positivo := by
  unfold Estoque.atualizarQuantidade at h
  unfold Estoque.positivo at hp ⊢
  cases hf : mapFind e.itens itemId with
  | none => simp [hf] at h
  | some r =>
      simp only [hf] at h
      split_ifs at h with h1 h2
      · simp only [Except.ok.injEq] at h
        subst h
        intro par hpar
        exact hp _ (mem_mapErase hpar)
      · simp only [Except.ok.injEq] at h
        subst h
        intro par hpar
        rcases mem_mapSet hpar with hpar | hpar
        · subst hpar
          show 0 < novaQuantidade
          omega
        · exact hp _ hpar

theorem Camarim.positivo_inserir {c c' : Camarim} {itemId : Int}
    {nomeItem : String} {quantidade : Int}
    (h : c.inserirItem itemId nomeItem quantidade = .ok c')
    (hp : c.positivo) : c'.positivo := by
  unfold Camarim.inserirItem at h
  unfold Camarim.positivo at hp ⊢
  split_ifs at h with h1 h2 h3
  cases hf : mapFind c.itens itemId with
  | some r =>
      simp only [hf, Except.ok.injEq] at h
      subst h
      intro par hpar
      rcases mem_mapSet hpar with hpar | hpar
      · have hr : 0 < r.quantidade := hp _ (mapFind_mem hf)
        subst hpar
        show 0 < r.quantidade + quantidade
        omega
      · exact hp _ hpar
  | none =>
      simp only [hf, Except.ok.injEq] at h
      subst h
      intro par hpar
      rcases mem_mapSet hpar with hpar | hpar
      · subst hpar
        show 0 < quantidade
        omega
      · exact hp _ hpar

theorem Camarim.positivo_remover_camarim {c c' : Camarim} {itemId quantidade : Int}
    {b : Bool} (h : c.removerItem itemId quantidade = .ok (c', b))
    (hp : c.positivo) : c'.positivo := by
  unfold Camarim.removerItem at h
  unfold Camarim.positivo at hp ⊢
  cases hf : mapFind c.itens itemId with
  | none => simp [hf] at h
  | some r =>
      simp only [hf] at h
      split_ifs at h with h1 h2 h3
      · simp only [Except.ok.injEq, Prod.mk.injEq] at h
        obtain ⟨h4, h5⟩ := h
        subst h4
        intro par hpar
        exact hp _ (mem_mapErase hpar)
      · simp only [Except.ok.injEq, Prod.mk.injEq] at h
        obtain ⟨h4, h5⟩ := h
        subst h4
        intro par hpar
        rcases mem_mapSet hpar with hpar | hpar
        · subst hpar
          show 0 < r.quantidade - quantidade
          omega
        · exact hp _ hpar

theorem Estoque.positivo_passos {e e' : Estoque}
    (h : Relation.ReflTransGen Estoque.Passo e e') (hp : e.positivo) :
    e'.positivo := by
  induction h with
  | refl => exact hp
  | tail _ hstep ih =>
      cases hstep with
      | adicionar itemId nomeItem quantidade hq hcall =>
          exact Estoque.positivo_adicionar hq hcall ih
      | remover itemId quantidade b hcall =>
          exact Estoque.positivo_remover hcall ih
      | atualizar itemId novaQuantidade hcall =>
          exact Estoque.positivo_atualizar hcall ih

theorem Camarim.positivo_passos_camarim {c c' : Camarim}
    (h : Relation.ReflTransGen Camarim.Passo c c') (hp : c.positivo) :
    c'.positivo := by
  induction h with
  | refl => exact hp
  | tail _ hstep ih =>
      cases hstep with
      | inserir itemId nomeItem quantidade hcall =>
          exact Camarim.positivo_inserir hcall ih
      | remover itemId quantidade b hcall =>
          exact Camarim.positivo_remover_camarim hcall ih

/-! Claim theorems. -/

/-- Claim C1 (corrected): on a shopping list where `itemId` is already
present with record `r`, a successful `adicionarItem(itemId, nome, q, preco)`
call adds `q` to the stored quantity and recomputes the subtotal as the new
total quantity multiplied by the PREVIOUSLY STORED unit price `r.preco`;
the `preco` argument supplied in the call is ignored for an existing
record (listacompras.cpp line 106 reads `itens[itemId].preco`). -/
theorem claim_C1_thm (l l' : ListaCompras) (itemId q : Int) (nome : String)
    (preco : Rat) (r : ItemCompra)
    (hr : mapFind l.itens itemId = some r)
    (h : l.adicionarItem itemId nome q preco = .ok l') :
    mapFind l'.itens itemId =
      some { r with quantidade := r.quantidade + q,
                    subtotal := ((r.quantidade + q : Int) : Rat) * r.preco } := by
  unfold ListaCompras.adicionarItem at h
  split_ifs at h with h1 h2 h3 h4
  simp only [hr, Except.ok.injEq] at h
  subst h
  exact mapFind_mapSet_self ..

/-- Witness for claim C1 at a concrete input: "Sabonete" stored with
quantity 3 and unit price 2, then added with quantity 2 at call price 5. -/
theorem claim_C1_witness :
    mapFind ((⟨1, "Semanal", [(1, ⟨1, "Sabonete", 5, 2, 10⟩)]⟩ : ListaCompras).itens) 1 =
      some { (⟨1, "Sabonete", 3, 2, 6⟩ : ItemCompra) with
             quantidade := 3 + 2, subtotal := ((3 + 2 : Int) : Rat) * (2 : Rat) } :=
  claim_C1_thm ⟨1, "Semanal", [(1, ⟨1, "Sabonete", 3, 2, 6⟩)]⟩
    ⟨1, "Semanal", [(1, ⟨1, "Sabonete", 5, 2, 10⟩)]⟩ 1 2 "Sabonete" 5
    ⟨1, "Sabonete", 3, 2, 6⟩ rfl
    (by
      norm_num [ListaCompras.adicionarItem, mapFind, mapSet]
      exact fun h => absurd h (by decide))

/-- Counterexample for claim C1 as stated: starting from "Sabonete" with
quantity 3 at stored unit price 2 (subtotal 6), `adicionarItem` with
quantity 2 and call price 5 yields subtotal 10 = 5 × 2 (the stored price),
not 25 = 5 × 5 (the price supplied in this call) as the claim requires. -/
theorem claim_C1_counterexample :
    ListaCompras.adicionarItem ⟨1, "Semanal", [(1, ⟨1, "Sabonete", 3, 2, 6⟩)]⟩ 1 "Sabonete" 2 5 =
      .ok ⟨1, "Semanal", [(1, ⟨1, "Sabonete", 5, 2, 10⟩)]⟩ ∧
    (10 : Rat) ≠ (3 + 2) * 5 := by
  constructor
  · norm_num [ListaCompras.adicionarItem, mapFind, mapSet]
    exact fun h => absurd h (by decide)
  · norm_num

/-- Claim C2 (corrected): starting from the empty central stock, after any
sequence of successful `adicionarItem` / `removerItem` /
`atualizarQuantidade` calls in which every `adicionarItem` call has
positive quantity or targets an id already present, no record with
quantity 0 is in the ledger; likewise, after any sequence of successful
`inserirItem` / `removerItem` calls on a dressing room whose ledger starts
empty. The restriction on the stock's `adicionarItem` is forced by the
counterexample below: the call with quantity 0 on an absent id is
accepted and creates a persistent zero-quantity record. -/
theorem claim_C2_thm :
    (∀ e : Estoque, Relation.ReflTransGen Estoque.Passo ⟨[]⟩ e →
        ∀ par ∈ e.itens, par.2.quantidade ≠ 0) ∧
    (∀ c0 c : Camarim, c0.itens = [] → Relation.ReflTransGen Camarim.Passo c0 c →
        ∀ par ∈ c.itens, par.2.quantidade ≠ 0) := by
  constructor
  · intro e hsteps par hpar
    have hpos : e.positivo :=
      Estoque.positivo_passos hsteps (by unfold Estoque.positivo; simp)
    have := hpos par hpar
    omega
  · intro c0 c h0 hsteps par hpar
    have hpos : c.positivo :=
      Camarim.positivo_passos_camarim hsteps (by unfold Camarim.positivo; rw [h0]; simp)
    have := hpos par hpar
    omega

/-- Witness for claim C2: a one-step stock sequence (add 5 "Toalha") and a
one-step dressing-room sequence (insert 3 "Espelho"), with the resulting
ledgers carrying no zero-quantity record. -/
theorem claim_C2_witness :
    (∀ par ∈ (⟨[(1, ⟨1, "Toalha", 5⟩)]⟩ : Estoque).itens, par.2.quantidade ≠ 0) ∧
    (∀ par ∈ (⟨7, "Sala", 0, [(2, ⟨2, "Espelho", 3⟩)]⟩ : Camarim).itens, par.2.quantidade ≠ 0) := by
  constructor
  · exact claim_C2_thm.1 _ (Relation.ReflTransGen.single
      (Estoque.Passo.adicionar _ _ 1 "Toalha" 5 (Or.inl (by decide)) rfl))
  · exact claim_C2_thm.2 ⟨7, "Sala", 0, []⟩ _ rfl (Relation.ReflTransGen.single
      (Camarim.Passo.inserir _ _ 2 "Espelho" 3 rfl))

/-- Counterexample for claim C2 as stated: on the empty stock,
`adicionarItem` with quantity 0 on the absent id 1 succeeds and a record
with quantity 0 is then present in the ledger. -/
theorem claim_C2_counterexample :
    Estoque.adicionarItem ⟨[]⟩ 1 "Toalha" 0 = .ok ⟨[(1, ⟨1, "Toalha", 0⟩)]⟩ ∧
    mapFind ((⟨[(1, ⟨1, "Toalha", 0⟩)]⟩ : Estoque).itens) 1 = some ⟨1, "Toalha", 0⟩ :=
  ⟨rfl, rfl⟩

/-- Claim C3 (corrected): the performer manager's `cadastrar` and the order
manager's `criar` reject a negative foreign-key id with a Validation
failure (appending nothing, since the throw happens before any write) and,
on a non-empty name with a non-negative foreign key, assign the current
`proximoId`, append the new entity, increment the counter and return the
assigned id. The dressing-room manager's `cadastrar`, however, does NOT
validate its `artistaId` argument (camarim.cpp lines 234-248 check only
the name) and succeeds for any `artistaId` whenever the name is
non-empty. -/
theorem claim_C3_thm :
    (∀ (g : GerenciadorArtistas) (nome : String) (camarimId : Int),
        camarimId < 0 →
        ∃ msg, g.cadastrar nome camarimId = .error (.validacao msg)) ∧
    (∀ (g : GerenciadorArtistas) (nome : String) (camarimId : Int),
        nome ≠ "" → 0 ≤ camarimId →
        g.cadastrar nome camarimId =
          .ok (⟨g.artistas ++ [⟨g.proximoId, nome, camarimId⟩], g.proximoId + 1⟩, g.proximoId)) ∧
    (∀ (g : GerenciadorPedidos) (camarimId : Int) (nomeArtista : String),
        camarimId < 0 →
        ∃ msg, g.criar camarimId nomeArtista = .error (.validacao msg)) ∧
    (∀ (g : GerenciadorPedidos) (camarimId : Int) (nomeArtista : String),
        nomeArtista ≠ "" → 0 ≤ camarimId →
        g.criar camarimId nomeArtista =
          .ok (⟨g.pedidos ++ [⟨g.proximoId, camarimId, nomeArtista, [], false⟩], g.proximoId + 1⟩, g.proximoId)) ∧
    (∀ (g : GerenciadorCamarins) (nome : String) (artistaId : Int),
        nome ≠ "" →
        g.cadastrar nome artistaId =
          .ok (⟨g.camarins ++ [⟨g.proximoId, nome, artistaId, []⟩], g.proximoId + 1⟩, g.proximoId)) := by
  refine ⟨?_, ?_, ?_, ?_, ?_⟩
  · intro g nome camarimId hcid
    unfold GerenciadorArtistas.cadastrar
    by_cases hn : nome = ""
    · exact ⟨"Nome do artista não pode ser vazio", by rw [if_pos hn]⟩
    · exact ⟨"ID de camarim inválido", by rw [if_neg hn, if_pos hcid]⟩
  · intro g nome camarimId hn hcid
    unfold GerenciadorArtistas.cadastrar
    rw [if_neg hn, if_neg (by omega : ¬ camarimId < 0)]
  · intro g camarimId nomeArtista hcid
    unfold GerenciadorPedidos.criar
    exact ⟨"ID do camarim inválido", by rw [if_pos hcid]⟩
  · intro g camarimId nomeArtista hn hcid
    unfold GerenciadorPedidos.criar
    rw [if_neg (by omega : ¬ camarimId < 0), if_neg hn]
  · intro g nome artistaId hn
    unfold GerenciadorCamarins.cadastrar
    rw [if_neg hn]

/-- Witness for claim C3 at concrete inputs: a rejected and an accepted
performer registration, a rejected and an accepted order creation, and a
dressing-room registration that is accepted despite `artistaId = -2`. -/
theorem claim_C3_witness :
    (∃ msg, GerenciadorArtistas.cadastrar ⟨[], 1⟩ "Ana" (-1) = .error (.validacao msg)) ∧
    GerenciadorArtistas.cadastrar ⟨[], 1⟩ "Ana" 0 = .ok (⟨[⟨1, "Ana", 0⟩], 2⟩, 1) ∧
    (∃ msg, GerenciadorPedidos.criar ⟨[], 1⟩ (-1) "Ana" = .error (.validacao msg)) ∧
    GerenciadorPedidos.criar ⟨[], 1⟩ 0 "Ana" = .ok (⟨[⟨1, 0, "Ana", [], false⟩], 2⟩, 1) ∧
    GerenciadorCamarins.cadastrar ⟨[], 1⟩ "Sala" (-2) = .ok (⟨[⟨1, "Sala", -2, []⟩], 2⟩, 1) :=
  ⟨claim_C3_thm.1 ⟨[], 1⟩ "Ana" (-1) (by decide),
   claim_C3_thm.2.1 ⟨[], 1⟩ "Ana" 0 (by decide) (by decide),
   claim_C3_thm.2.2.1 ⟨[], 1⟩ (-1) "Ana" (by decide),
   claim_C3_thm.2.2.2.1 ⟨[], 1⟩ 0 "Ana" (by decide) (by decide),
   claim_C3_thm.2.2.2.2 ⟨[], 1⟩ "Sala" (-2) (by decide)⟩

/-- Counterexample for claim C3 as stated: the dressing-room manager
accepts `cadastrar("Principal", -5)` — no Validation failure is raised, the
entity is appended with the negative `artistaId` and the id is returned. -/
theorem claim_C3_counterexample :
    GerenciadorCamarins.cadastrar ⟨[], 1⟩ "Principal" (-5) =
      .ok (⟨[⟨1, "Principal", -5, []⟩], 2⟩, 1) := rfl

/-- Claim C4 (corrected): for the central stock, with the item present and
the stored quantity sufficient, `removerItem` raises Validation exactly
when the requested quantity is negative (`q < 0`), so a withdrawal of 0
succeeds; for a dressing room, `removerItem` raises Validation exactly
when `q <= 0` (camarim.cpp line 137), so a withdrawal of 0 DOES fail
there, contrary to the claim. -/
theorem claim_C4_thm :
    (∀ (e : Estoque) (itemId q : Int) (r : ItemEstoque),
        mapFind e.itens itemId = some r → q ≤ r.quantidade →
        ((∃ msg, e.removerItem itemId q = .error (.validacao msg)) ↔ q < 0)) ∧
    (∀ (c : Camarim) (itemId q : Int) (r : ItemCamarim),
        mapFind c.itens itemId = some r → q ≤ r.quantidade →
        ((∃ msg, c.removerItem itemId q = .error (.validacao msg)) ↔ q ≤ 0)) := by
  constructor
  · intro e itemId q r hr hq
    unfold Estoque.removerItem
    simp only [hr]
    by_cases hneg : q < 0
    · simp [hneg]
    · rw [if_neg hneg, if_neg (by omega : ¬ r.quantidade < q)]
      constructor
      · rintro ⟨msg, hmsg⟩
        split_ifs at hmsg
      · intro hlt
        exact absurd hlt hneg
  · intro c itemId q r hr hq
    unfold Camarim.removerItem
    simp only [hr]
    by_cases hneg : q ≤ 0
    · simp [hneg]
    · rw [if_neg hneg, if_neg (by omega : ¬ r.quantidade < q)]
      constructor
      · rintro ⟨msg, hmsg⟩
        split_ifs at hmsg
      · intro hle
        exact absurd hle hneg

/-- Witness for claim C4 at concrete inputs: a negative stock withdrawal
is a Validation failure, and a zero dressing-room withdrawal is one. -/
theorem claim_C4_witness :
    ((∃ msg, Estoque.removerItem ⟨[(1, ⟨1, "Toalha", 5⟩)]⟩ 1 (-1) = .error (.validacao msg)) ↔
      (-1 : Int) < 0) ∧
    ((∃ msg, Camarim.removerItem ⟨3, "Sala", 0, [(1, ⟨1, "Toalha", 5⟩)]⟩ 1 0 = .error (.validacao msg)) ↔
      (0 : Int) ≤ 0) :=
  ⟨claim_C4_thm.1 ⟨[(1, ⟨1, "Toalha", 5⟩)]⟩ 1 (-1) ⟨1, "Toalha", 5⟩ rfl (by decide),
   claim_C4_thm.2 ⟨3, "Sala", 0, [(1, ⟨1, "Toalha", 5⟩)]⟩ 1 0 ⟨1, "Toalha", 5⟩ rfl (by decide)⟩

/-- Counterexample for claim C4 as stated: on a dressing room holding
"Toalha" with quantity 5 (present, sufficient), withdrawing quantity 0 —
which is not negative — raises a Validation failure. -/
theorem claim_C4_counterexample :
    Camarim.removerItem ⟨1, "Sala", 0, [(1, ⟨1, "Toalha", 5⟩)]⟩ 1 0 =
      .error (.validacao "Quantidade deve ser maior que zero") ∧
    ¬ (0 : Int) < 0 :=
  ⟨rfl, by decide⟩

/-- Claim C5 (confirmed): withdrawing more than the stored quantity from
the central stock raises `EstoqueInsuficienteException` and from a
dressing room raises its own insufficiency `CamarimException`, and in both
cases the caller's ledger state is unchanged (the methods throw before any
write). The positivity hypotheses on the stored quantity are the ledger
invariants established in `claim_C2_thm`. -/
theorem claim_C5_thm :
    (∀ (e : Estoque) (itemId q : Int) (r : ItemEstoque),
        mapFind e.itens itemId = some r → 0 ≤ r.quantidade → r.quantidade < q →
        (∃ msg, e.removerItem itemId q = .error (.estoqueInsuficiente msg)) ∧
        e.removerItemEstado itemId q = e) ∧
    (∀ (c : Camarim) (itemId q : Int) (r : ItemCamarim),
        mapFind c.itens itemId = some r → 0 < r.quantidade → r.quantidade < q →
        c.removerItem itemId q = .error (.camarim "Quantidade insuficiente no camarim") ∧
        c.removerItemEstado itemId q = c) := by
  constructor
  · intro e itemId q r hr h0 hlt
    have heq : e.removerItem itemId q = .error (.estoqueInsuficiente
        ("Quantidade insuficiente. Disponível: " ++ toString r.quantidade ++
         ", Solicitado: " ++ toString q)) := by
      unfold Estoque.removerItem
      simp only [hr]
      rw [if_neg (by omega : ¬ q < 0), if_pos hlt]
    exact ⟨⟨_, heq⟩, by unfold Estoque.removerItemEstado; rw [heq]⟩
  · intro c itemId q r hr h0 hlt
    have heq : c.removerItem itemId q = .error (.camarim "Quantidade insuficiente no camarim") := by
      unfold Camarim.removerItem
      simp only [hr]
      rw [if_neg (by omega : ¬ q ≤ 0), if_pos hlt]
    exact ⟨heq, by unfold Camarim.removerItemEstado; rw [heq]⟩

/-- Witness for claim C5 at concrete inputs: withdrawing 9 of 5 "Toalha"
from the stock and 7 of 4 "Espelho" from a dressing room. -/
theorem claim_C5_witness :
    ((∃ msg, Estoque.removerItem ⟨[(1, ⟨1, "Toalha", 5⟩)]⟩ 1 9 = .error (.estoqueInsuficiente msg)) ∧
      Estoque.removerItemEstado ⟨[(1, ⟨1, "Toalha", 5⟩)]⟩ 1 9 = ⟨[(1, ⟨1, "Toalha", 5⟩)]⟩) ∧
    (Camarim.removerItem ⟨3, "Sala", 0, [(2, ⟨2, "Espelho", 4⟩)]⟩ 2 7 =
        .error (.camarim "Quantidade insuficiente no camarim") ∧
      Camarim.removerItemEstado ⟨3, "Sala", 0, [(2, ⟨2, "Espelho", 4⟩)]⟩ 2 7 =
        ⟨3, "Sala", 0, [(2, ⟨2, "Espelho", 4⟩)]⟩) :=
  ⟨claim_C5_thm.1 ⟨[(1, ⟨1, "Toalha", 5⟩)]⟩ 1 9 ⟨1, "Toalha", 5⟩ rfl (by decide) (by decide),
   claim_C5_thm.2 ⟨3, "Sala", 0, [(2, ⟨2, "Espelho", 4⟩)]⟩ 2 7 ⟨2, "Espelho", 4⟩ rfl
     (by decide) (by decide)⟩

/-- Claim C6 (confirmed): withdrawing exactly the stored quantity succeeds
and afterwards no record for that id exists in the ledger, for the central
stock and for a dressing room. The hypotheses on the stored quantity are
the ledger invariants established in `claim_C2_thm` (for a dressing room a
record always has positive quantity; for the stock, non-negative). -/
theorem claim_C6_thm :
    (∀ (e : Estoque) (itemId : Int) (r : ItemEstoque),
        mapFind e.itens itemId = some r → 0 ≤ r.quantidade →
        ∃ e1, e.removerItem itemId r.quantidade = .ok (e1, true) ∧
          mapFind e1.itens itemId = none) ∧
    (∀ (c : Camarim) (itemId : Int) (r : ItemCamarim),
        mapFind c.itens itemId = some r → 0 < r.quantidade →
        ∃ c1, c.removerItem itemId r.quantidade = .ok (c1, true) ∧
          mapFind c1.itens itemId = none) := by
  constructor
  · intro e itemId r hr h0
    refine ⟨⟨mapErase e.itens itemId⟩, ?_, mapFind_mapErase_self ..⟩
    unfold Estoque.removerItem
    simp only [hr]
    rw [if_neg (by omega : ¬ r.quantidade < 0), if_neg (lt_irrefl r.quantidade),
        if_pos (sub_self r.quantidade)]
  · intro c itemId r hr h0
    refine ⟨{ c with itens := mapErase c.itens itemId }, ?_, mapFind_mapErase_self ..⟩
    unfold Camarim.removerItem
    simp only [hr]
    rw [if_neg (by omega : ¬ r.quantidade ≤ 0), if_neg (lt_irrefl r.quantidade),
        if_pos (sub_self r.quantidade)]

/-- Witness for claim C6 at concrete inputs: withdrawing all 5 "Toalha"
from the stock and all 4 "Espelho" from a dressing room. -/
theorem claim_C6_witness :
    (∃ e1, Estoque.removerItem ⟨[(1, ⟨1, "Toalha", 5⟩)]⟩ 1 5 = .ok (e1, true) ∧
      mapFind e1.itens 1 = none) ∧
    (∃ c1, Camarim.removerItem ⟨3, "Sala", 0, [(2, ⟨2, "Espelho", 4⟩)]⟩ 2 4 = .ok (c1, true) ∧
      mapFind c1.itens 2 = none) :=
  ⟨claim_C6_thm.1 ⟨[(1, ⟨1, "Toalha", 5⟩)]⟩ 1 ⟨1, "Toalha", 5⟩ rfl (by decide),
   claim_C6_thm.2 ⟨3, "Sala", 0, [(2, ⟨2, "Espelho", 4⟩)]⟩ 2 ⟨2, "Espelho", 4⟩ rfl (by decide)⟩

/-- Claim C7 (confirmed): once an order's `atendido` flag is true, every
`adicionarItem` and `removerItem` call on it raises the Order-kind
"already fulfilled" failure (pedido.cpp lines 450-452 and 482-484), and the
order — its line-item ledger and its flag — is unchanged, since the method
throws before any write. -/
theorem claim_C7_thm (p : Pedido) (h : p.atendido = true) :
    (∀ (itemId : Int) (nomeItem : String) (quantidade : Int),
        p.adicionarItem itemId nomeItem quantidade =
          .error (.pedido "Não é possível adicionar itens a um pedido já atendido") ∧
        p.adicionarItemEstado itemId nomeItem quantidade = p) ∧
    (∀ itemId : Int,
        p.removerItem itemId =
          .error (.pedido "Não é possível remover itens de um pedido já atendido") ∧
        p.removerItemEstado itemId = p) := by
  constructor
  · intro itemId nomeItem quantidade
    have heq : p.adicionarItem itemId nomeItem quantidade =
        .error (.pedido "Não é possível adicionar itens a um pedido já atendido") := by
      unfold Pedido.adicionarItem
      simp [h]
    exact ⟨heq, by unfold Pedido.adicionarItemEstado; rw [heq]⟩
  · intro itemId
    have heq : p.removerItem itemId =
        .error (.pedido "Não é possível remover itens de um pedido já atendido") := by
      unfold Pedido.removerItem
      simp [h]
    exact ⟨heq, by unfold Pedido.removerItemEstado; rw [heq]⟩

/-- Witness for claim C7 at a concrete fulfilled order holding one line
item. -/
theorem claim_C7_witness :
    (Pedido.adicionarItem ⟨1, 2, "Ana", [(1, ⟨1, "Toalha", 2⟩)], true⟩ 3 "Sabonete" 1 =
        .error (.pedido "Não é possível adicionar itens a um pedido já atendido") ∧
      Pedido.adicionarItemEstado ⟨1, 2, "Ana", [(1, ⟨1, "Toalha", 2⟩)], true⟩ 3 "Sabonete" 1 =
        ⟨1, 2, "Ana", [(1, ⟨1, "Toalha", 2⟩)], true⟩) ∧
    (Pedido.removerItem ⟨1, 2, "Ana", [(1, ⟨1, "Toalha", 2⟩)], true⟩ 1 =
        .error (.pedido "Não é possível remover itens de um pedido já atendido") ∧
      Pedido.removerItemEstado ⟨1, 2, "Ana", [(1, ⟨1, "Toalha", 2⟩)], true⟩ 1 =
        ⟨1, 2, "Ana", [(1, ⟨1, "Toalha", 2⟩)], true⟩) :=
  ⟨(claim_C7_thm ⟨1, 2, "Ana", [(1, ⟨1, "Toalha", 2⟩)], true⟩ rfl).1 3 "Sabonete" 1,
   (claim_C7_thm ⟨1, 2, "Ana", [(1, ⟨1, "Toalha", 2⟩)], true⟩ rfl).2 1⟩

/-- Claim C8 (confirmed): `marcarAtendido` is idempotent — after one call
the flag is true, after a second call it is still true, and the second call
changes nothing; the method (pedido.cpp lines 501-504) is a plain
unconditional assignment that cannot fail, which the embedding reflects by
being a total function. -/
theorem claim_C8_thm (p : Pedido) :
    (p.marcarAtendido).atendido = true ∧
    ((p.marcarAtendido).marcarAtendido).atendido = true ∧
    (p.marcarAtendido).marcarAtendido = p.marcarAtendido := by
  unfold Pedido.marcarAtendido
  exact ⟨rfl, rfl, rfl⟩

/-- Claim C9 (confirmed): a successful catalog `cadastrar(nome, preco)`
makes `buscarPorNome nome` return an entry with exactly that name and
price (the duplicate-name check guarantees the appended entry is the first
match); and when `remover id` reports success, `buscarPorId id` returns
the not-found result. -/
theorem claim_C9_thm :
    (∀ (g g1 : GerenciadorItens) (nome : String) (preco : Rat) (id : Int),
        g.cadastrar nome preco = .ok (g1, id) →
        ∃ it, g1.buscarPorNome nome = some it ∧ it.nome = nome ∧ it.preco = preco) ∧
    (∀ (g g1 : GerenciadorItens) (id : Int),
        g.remover id = (g1, true) → g1.buscarPorId id = none) := by
  constructor
  · intro g g1 nome preco id h
    unfold GerenciadorItens.cadastrar at h
    split_ifs at h with h1 h2 h3
    simp only [Except.ok.injEq, Prod.mk.injEq] at h
    obtain ⟨hg, hid⟩ := h
    subst hg
    refine ⟨⟨g.proximoId, nome, preco⟩, ?_, rfl, rfl⟩
    unfold GerenciadorItens.buscarPorNome at h3 ⊢
    have hnone : g.itens.find? (fun i => i.nome = nome) = none := by
      cases hcase : g.itens.find? (fun i => i.nome = nome) with
      | none => rfl
      | some it => rw [hcase] at h3; simp at h3
    rw [find_append_of_none _ _ hnone]
    simp
  · intro g g1 id h
    unfold GerenciadorItens.remover at h
    split_ifs at h with h1
    · simp only [Prod.mk.injEq] at h
      obtain ⟨hg, h2⟩ := h
      subst hg
      unfold GerenciadorItens.buscarPorId
      rw [List.find?_eq_none]
      intro it hit
      rw [List.mem_filter] at hit
      obtain ⟨hmem, hpred⟩ := hit
      simp at hpred ⊢
      exact hpred
    · exact absurd h (by simp)

/-- Witness for claim C9 at concrete inputs: registering "Toalha" at price
2 into the empty catalog, then looking it up by name; removing id 1 from a
one-entry catalog, then looking it up by id. -/
theorem claim_C9_witness :
    (∃ it, GerenciadorItens.buscarPorNome ⟨[⟨1, "Toalha", 2⟩], 2⟩ "Toalha" = some it ∧
        it.nome = "Toalha" ∧ it.preco = 2) ∧
    GerenciadorItens.buscarPorId ⟨[], 2⟩ 1 = none :=
  ⟨claim_C9_thm.1 ⟨[], 1⟩ ⟨[⟨1, "Toalha", 2⟩], 2⟩ "Toalha" 2 1
      (by
        norm_num [GerenciadorItens.cadastrar, GerenciadorItens.buscarPorNome]
        exact fun h => absurd h (by decide)),
   claim_C9_thm.2 ⟨[⟨1, "Toalha", 2⟩], 2⟩ ⟨[], 2⟩ 1
      (by norm_num [GerenciadorItens.remover])⟩

/-- Claim C10 (confirmed): a successful upsert on an id already present
leaves the stored record's `nomeItem` unchanged in all four ledgers
(stock, dressing room, order, shopping list), ignoring the name argument
of the call; the shopping-list variant also leaves the stored unit price
unchanged, ignoring the price argument. -/
theorem claim_C10_thm :
    (∀ (e e1 : Estoque) (itemId : Int) (nomeItem : String) (q : Int) (r : ItemEstoque),
        mapFind e.itens itemId = some r →
        e.adicionarItem itemId nomeItem q = .ok e1 →
        ∃ r1, mapFind e1.itens itemId = some r1 ∧ r1.nomeItem = r.nomeItem) ∧
    (∀ (c c1 : Camarim) (itemId : Int) (nomeItem : String) (q : Int) (r : ItemCamarim),
        mapFind c.itens itemId = some r →
        c.inserirItem itemId nomeItem q = .ok c1 →
        ∃ r1, mapFind c1.itens itemId = some r1 ∧ r1.nomeItem = r.nomeItem) ∧
    (∀ (p p1 : Pedido) (itemId : Int) (nomeItem : String) (q : Int) (r : ItemPedido),
        mapFind p.itens itemId = some r →
        p.adicionarItem itemId nomeItem q = .ok p1 →
        ∃ r1, mapFind p1.itens itemId = some r1 ∧ r1.nomeItem = r.nomeItem) ∧
    (∀ (l l1 : ListaCompras) (itemId : Int) (nomeItem : String) (q : Int) (preco : Rat)
        (r : ItemCompra),
        mapFind l.itens itemId = some r →
        l.adicionarItem itemId nomeItem q preco = .ok l1 →
        ∃ r1, mapFind l1.itens itemId = some r1 ∧ r1.nomeItem = r.nomeItem ∧
          r1.preco = r.preco) := by
  refine ⟨?_, ?_, ?_, ?_⟩
  · intro e e1 itemId nomeItem q r hr h
    unfold Estoque.adicionarItem at h
    split_ifs at h with h1 h2 h3
    simp only [hr, Except.ok.injEq] at h
    subst h
    exact ⟨_, mapFind_mapSet_self .., rfl⟩
  · intro c c1 itemId nomeItem q r hr h
    unfold Camarim.inserirItem at h
    split_ifs at h with h1 h2 h3
    simp only [hr, Except.ok.injEq] at h
    subst h
    exact ⟨_, mapFind_mapSet_self .., rfl⟩
  · intro p p1 itemId nomeItem q r hr h
    unfold Pedido.adicionarItem at h
    split_ifs at h with h1 h2 h3 h4
    simp only [hr, Except.ok.injEq] at h
    subst h
    exact ⟨_, mapFind_mapSet_self .., rfl⟩
  · intro l l1 itemId nomeItem q preco r hr h
    unfold ListaCompras.adicionarItem at h
    split_ifs at h with h1 h2 h3 h4
    simp only [hr, Except.ok.injEq] at h
    subst h
    exact ⟨_, mapFind_mapSet_self .., rfl, rfl⟩

/-- Witness for claim C10 at concrete inputs: each ledger upserts onto an
existing id with a different name (and, for the shopping list, a different
price), and the stored name (and price) survives. -/
theorem claim_C10_witness :
    (∃ r1, mapFind ((⟨[(1, ⟨1, "Toalha", 7⟩)]⟩ : Estoque).itens) 1 = some r1 ∧
      r1.nomeItem = (⟨1, "Toalha", 5⟩ : ItemEstoque).nomeItem) ∧
    (∃ r1, mapFind ((⟨3, "Sala", 0, [(1, ⟨1, "Toalha", 7⟩)]⟩ : Camarim).itens) 1 = some r1 ∧
      r1.nomeItem = (⟨1, "Toalha", 5⟩ : ItemCamarim).nomeItem) ∧
    (∃ r1, mapFind ((⟨1, 2, "Ana", [(1, ⟨1, "Toalha", 7⟩)], false⟩ : Pedido).itens) 1 = some r1 ∧
      r1.nomeItem = (⟨1, "Toalha", 5⟩ : ItemPedido).nomeItem) ∧
    (∃ r1, mapFind ((⟨1, "Semanal", [(1, ⟨1, "Sabonete", 5, 2, 10⟩)]⟩ : ListaCompras).itens) 1 =
        some r1 ∧
      r1.nomeItem = (⟨1, "Sabonete", 3, 2, 6⟩ : ItemCompra).nomeItem ∧
      r1.preco = (⟨1, "Sabonete", 3, 2, 6⟩ : ItemCompra).preco) :=
  ⟨claim_C10_thm.1 ⟨[(1, ⟨1, "Toalha", 5⟩)]⟩ ⟨[(1, ⟨1, "Toalha", 7⟩)]⟩ 1 "Outro" 2
      ⟨1, "Toalha", 5⟩ rfl rfl,
   claim_C10_thm.2.1 ⟨3, "Sala", 0, [(1, ⟨1, "Toalha", 5⟩)]⟩ ⟨3, "Sala", 0, [(1, ⟨1, "Toalha", 7⟩)]⟩
      1 "Outro" 2 ⟨1, "Toalha", 5⟩ rfl rfl,
   claim_C10_thm.2.2.1 ⟨1, 2, "Ana", [(1, ⟨1, "Toalha", 5⟩)], false⟩
      ⟨1, 2, "Ana", [(1, ⟨1, "Toalha", 7⟩)], false⟩ 1 "Outro" 2 ⟨1, "Toalha", 5⟩ rfl rfl,
   claim_C10_thm.2.2.2 ⟨1, "Semanal", [(1, ⟨1, "Sabonete", 3, 2, 6⟩)]⟩
      ⟨1, "Semanal", [(1, ⟨1, "Sabonete", 5, 2, 10⟩)]⟩ 1 "Outro" 2 9 ⟨1, "Sabonete", 3, 2, 6⟩ rfl
      (by
        norm_num [ListaCompras.adicionarItem, mapFind, mapSet]
        exact fun h => absurd h (by decide))⟩
